import Mathlib

/-!
Verification of the unit-test/documentation generation pipeline in `main.py`.

Strings are embedded as `List Char` so that every operation the source performs
(reversal, slicing, `str.replace`, `str.split`, `str.strip`, regex fence
scanning) is an executable Lean function with the same observable behaviour.
The external collaborators (the OpenAI chat completion service and the Python
`ast.parse` syntax check) are parameters: a response oracle `respond : Nat → Str`
indexed by the global request counter, and a predicate `parses : Str → Bool`.
-/

namespace Main

/-- Python strings, embedded as lists of characters. -/
abbrev Str := List Char

/-- Python `str.split(sep)` for a single-character separator: splits on every
occurrence of `sep`, keeping empty segments (`"a..b".split(".") = ["a","","b"]`). -/
def pySplitAux (sep : Char) : Str → Str → List Str
  | [], acc => [acc.reverse]
  | c :: rest, acc =>
    if c = sep then acc.reverse :: pySplitAux sep rest []
    else pySplitAux sep rest (c :: acc)

/-- Python `s.split(sep)` (single-character separator, no maxsplit). -/
def pySplit (sep : Char) (s : Str) : List Str := pySplitAux sep s []

/-- Python `sep.join(parts)`. -/
def pyJoin (sep : Str) : List Str → Str
  | [] => []
  | [x] => x
  | x :: y :: rest => x ++ sep ++ pyJoin sep (y :: rest)

/-- Characters removed by Python `str.strip()` with no argument. -/
def isPySpace (c : Char) : Bool :=
  c = ' ' || c = '\t' || c = '\n' || c = '\x0d' || c = '\x0b' || c = '\x0c'

/-- Python `str.strip()`: drop leading and trailing whitespace. -/
def pyStrip (s : Str) : Str :=
  ((s.dropWhile isPySpace).reverse.dropWhile isPySpace).reverse

/-- Index of the first occurrence of `pat` in `s` (`str.find`), as an `Option`. -/
def pyFind : Str → Str → Option Nat
  | [], pat => if pat.isEmpty then some 0 else none
  | c :: rest, pat =>
    if pat.isPrefixOf (c :: rest) then some 0
    else (pyFind rest pat).map (· + 1)

/-- Fuel-driven core of Python `str.replace(old, new[, count])`: scan left to
right, replacing leftmost non-overlapping occurrences of `old` by `new`;
`cnt = none` means unlimited, `cnt = some k` replaces at most `k` occurrences.
An empty `old` matches before every character and at the end, as in Python.
The fuel only ensures structural recursion; `s.length + 1` is always enough. -/
def pyReplaceF : Nat → Str → Str → Str → Option Nat → Str
  | 0, s, _, _, _ => s
  | fuel + 1, s, old, new, cnt =>
    if cnt = some 0 then s
    else
      match s with
      | [] => if old = [] then new else []
      | c :: rest =>
        if old ≠ [] ∧ old.isPrefixOf (c :: rest) then
          new ++ pyReplaceF fuel (rest.drop (old.length - 1)) old new (cnt.map (· - 1))
        else if old = [] then
          new ++ c :: pyReplaceF fuel rest old new (cnt.map (· - 1))
        else
          c :: pyReplaceF fuel rest old new cnt

/-- Python `s.replace(old, new)` (replace all occurrences). -/
def pyReplace (s old new : Str) : Str := pyReplaceF (s.length + 1) s old new none

/-- Python `s.replace(old, new, 1)` (replace only the first occurrence). -/
def pyReplace1 (s old new : Str) : Str := pyReplaceF (s.length + 1) s old new (some 1)

/-- The opening fence of `extract_all_python_code` (`start_marker` in the source). -/
def start_marker : Str := "```python".toList

/-- The closing fence of `extract_all_python_code` (`end_marker` in the source). -/
def end_marker : Str := "```".toList

/-- Fuel-driven scan for the regex `` ```python(.*?)(```) `` with `re.DOTALL`:
find the next opening fence, then the nearest closing fence after it (lazy
`.*?`), record the enclosed text, and continue after the closing fence.
`s.length + 1` fuel is always sufficient. -/
def findBlocksF : Nat → Str → List Str
  | 0, _ => []
  | fuel + 1, s =>
    match pyFind s start_marker with
    | none => []
    | some i =>
      let afterOpen := s.drop (i + start_marker.length)
      match pyFind afterOpen end_marker with
      | none => []
      | some j =>
        afterOpen.take j :: findBlocksF fuel (afterOpen.drop (j + end_marker.length))

/-- All fenced python blocks of a response, in document order. -/
def findBlocks (s : Str) : List Str := findBlocksF (s.length + 1) s

/-- `extract_all_python_code` from the source: collect every fenced block,
strip each, and concatenate them with no separator; `none` when no block is
found (Python returns `None`, a result distinct from the empty string). -/
def extract_all_python_code (string : Str) : Option Str :=
  match findBlocks string with
  | [] => none
  | ms => some ((ms.map pyStrip).flatten)

/-- One chat message (`{"role": ..., "content": ...}`). -/
structure Message where
  role : Str
  content : Str
deriving DecidableEq

/-- One request to the model service, as assembled by `openai.ChatCompletion.create`
inside `chat_gpt_wrapper`: the keyword arguments the source passes. -/
structure Request where
  engine : Str
  model : Str
  messages : List Message
  max_tokens : Nat
  temperature : ℚ
deriving DecidableEq

/-- Python exceptions that the embedded code can raise (and that `main.py`
never catches, so they abort the run). -/
inductive PyError where
  | typeError
  | unboundLocal
  | attributeError
  | indexError
  | fileNotFound
deriving DecidableEq

/-- `chat_gpt_wrapper` from the source. `respond callIdx` is the content of the
first choice of the `callIdx`-th model request of the run; `parses` is the
Python `ast.parse` success predicate. Returns the list of requests issued, the
final state of the (in Python, in-place mutated) `input_messages` list, and
either the returned `code_output` or the uncaught exception: `ast.parse(None)`
raises a `TypeError`, which the `except SyntaxError` clause does not catch.
On a parse failure with `reruns_if_fail > 0` the source re-invokes itself
without forwarding `model`, so the retry uses the default `"gpt-4"`. -/
def chat_gpt_wrapper (parses : Str → Bool) (respond : Nat → Str) (callIdx : Nat)
    (input_messages : List Message) (engine model : Str) (max_tokens : Nat)
    (temperature : ℚ) (reruns_if_fail : Nat) :
    List Request × List Message × Except PyError (Option Str) :=
  let req : Request := ⟨engine, model, input_messages, max_tokens, temperature⟩
  let unit_test_completion := respond callIdx
  let msgs := input_messages ++ [⟨"assistant".toList, unit_test_completion⟩]
  match extract_all_python_code unit_test_completion with
  | none => ([req], msgs, Except.error PyError.typeError)
  | some code_output =>
    if parses code_output then ([req], msgs, Except.ok (some code_output))
    else
      match reruns_if_fail with
      | 0 => ([req], msgs, Except.ok (some code_output))
      | n + 1 =>
        let r := chat_gpt_wrapper parses respond (callIdx + 1) msgs engine
          ("gpt-4".toList) max_tokens temperature n
        (req :: r.1, r.2)

/-- The artifact path mapping used at lines 238 and 286 of the source:
`file_path[::-1].replace("\\", "/test_", 1)[::-1]` — reverse the path, replace
the first backslash by the (unreversed) string `"/test_"`, reverse back. -/
def unit_test_path (file_path : Str) : Str :=
  (pyReplace1 file_path.reverse ("\\".toList) ("/test_".toList)).reverse

/-- Python f-string interpolation of a value that may be `None`: `None` renders
as the text `None`. -/
def renderOpt : Option Str → Str
  | none => "None".toList
  | some s => s

/-- The filesystem, as an association list from path to content; the head is
the most recent write. -/
abbrev FS := List (Str × Str)

/-- Content at a path, `none` when the file does not exist. -/
def fsRead : FS → Str → Option Str
  | [], _ => none
  | (k, v) :: rest, p => if k = p then some v else fsRead rest p

/-- `open(p, "w"); write(v)`: full overwrite of the path. -/
def fsWrite (fs : FS) (p v : Str) : FS := (p, v) :: fs

/-- `os.remove(p)`. -/
def fsRemove : FS → Str → FS
  | [], _ => []
  | (k, v) :: rest, p => if k = p then fsRemove rest p else (k, v) :: fsRemove rest p

/-- `os.path.exists(p)`. -/
def fsExists (fs : FS) (p : Str) : Bool := (fsRead fs p).isSome

/-- The run-constant inputs of one `generate_unit_test` call: the two external
collaborators (`parses` for `ast.parse`, `respond` for the model service) and
the configuration strings forwarded to the standalone-function branch. -/
structure Ctx where
  parses : Str → Bool
  respond : Nat → Str
  doc_package : Str
  engine : Str
  model : Str
  max_tokens : Nat
  temperature : ℚ

/-- The mutable state threaded through the `generate_unit_test` loop: the two
conversation sessions, the Python local variable `class_name` (`none` while it
is still unbound), the number of model requests issued so far (the index fed to
the response oracle), and the filesystem. -/
structure PipelineState where
  messages : List Message
  doc_messages : List Message
  class_name : Option Str
  calls : Nat
  fs : FS

/-- The 32 spaces that each line-continuation inside the class-method unit-test
prompt f-string contributes (source lines 203–207). -/
def sp32 : Str := List.replicate 32 ' '

/-- The 28 spaces contributed by the continuations of the standalone-function
prompt f-string (source lines 221–225). -/
def sp28 : Str := List.replicate 28 ' '

/-- `class_name` and `function_name` as the source computes them from
`str(class_method)`: `split(".")[0].split(" ")[1]` and `split(".")[1].split(" ")[0]`;
a short split result raises an `IndexError` in Python. -/
def methodNames (r : Str) : Except PyError (Str × Str) := do
  let seg0 ← match (pySplit '.' r).get? 0 with
    | some x => Except.ok x
    | none => Except.error PyError.indexError
  let class_name ← match (pySplit ' ' seg0).get? 1 with
    | some x => Except.ok x
    | none => Except.error PyError.indexError
  let seg1 ← match (pySplit '.' r).get? 1 with
    | some x => Except.ok x
    | none => Except.error PyError.indexError
  let function_name ← match (pySplit ' ' seg1).get? 0 with
    | some x => Except.ok x
    | none => Except.error PyError.indexError
  return (class_name, function_name)

/-- The `request_for_unit_test` f-string of the class-method branch, with the
literal line-continuation spacing of the source. -/
def request_for_unit_test (function_name class_name function_to_test file_path : Str) : Str :=
  " provide unit test for the function `".toList ++ function_name ++ " in ".toList ++
    class_name ++ "`.".toList ++ sp32 ++ "```python".toList ++ sp32 ++ function_to_test ++
    " ".toList ++ sp32 ++ "```".toList ++ sp32 ++
    "and the path of the function is ".toList ++ file_path ++ sp32

/-- The `prompt_to_explain_the_function` f-string of the standalone-function
branch, with the literal line-continuation spacing of the source. -/
def prompt_to_explain_the_function (function_name function_to_test file_path : Str) : Str :=
  " provide unit test for the function `".toList ++ function_name ++ "`.".toList ++ sp28 ++
    "```python".toList ++ sp28 ++ function_to_test ++ " ".toList ++ sp28 ++ "```".toList ++
    sp28 ++ "and the path of the function is ".toList ++ file_path ++ sp28

/-- One class-method iteration of the `generate_unit_test` inner loop (source
lines 175–216): derive the names, run the documentation exchange and trim
`doc_messages` to `[first] + last_four` when longer than 4, splice the
documented code into the source file, run the unit-test exchange, then — the
slip at source lines 211–212 — re-check `len(doc_messages) > 4` but slice the
*string* `doc_code` instead of the `messages` session (the result is dead),
and finally write the per-function test file. The second component accumulates
`generated_unit_test`; `some e` in the third reports an uncaught exception. -/
def processClassMethod (ctx : Ctx) (file_path class_method_repr function_to_test : Str)
    (st : PipelineState) (generated_unit_test : Str) :
    PipelineState × Str × Option PyError :=
  match methodNames class_method_repr with
  | .error e => (st, generated_unit_test, some e)
  | .ok (class_name, function_name) =>
    let st1 := {st with class_name := some class_name}
    let dm0 := st1.doc_messages ++ [⟨"user".toList,
      "provide documentation for ".toList ++ function_to_test ++ " in class ".toList ++
        class_name ++ " that can be used in ".toList ++ ctx.doc_package⟩]
    let w1 := chat_gpt_wrapper ctx.parses ctx.respond st1.calls dm0 ("GPT4".toList)
      ("gpt-4".toList) 1000 (1/5) 0
    let st2 := {st1 with doc_messages := w1.2.1, calls := st1.calls + w1.1.length}
    match w1.2.2 with
    | .error e => (st2, generated_unit_test, some e)
    | .ok doc_code0 =>
      let st3 := {st2 with doc_messages :=
        if st2.doc_messages.length > 4 then
          st2.doc_messages.take 1 ++ st2.doc_messages.drop (st2.doc_messages.length - 4)
        else st2.doc_messages}
      match fsRead st3.fs file_path with
      | none => (st3, generated_unit_test, some PyError.fileNotFound)
      | some file_content =>
        match doc_code0 with
        | none => (st3, generated_unit_test, some PyError.attributeError)
        | some dc0 =>
          let doc_code := if ("class".toList).isPrefixOf dc0 then
              pyJoin ("\n".toList) ((pySplit '\n' dc0).drop 1)
            else ("    ".toList) ++ pyReplace dc0 ("\n".toList) ("\n    ".toList)
          let new_content := pyReplace file_content function_to_test doc_code
          let st4 := {st3 with fs := fsWrite st3.fs file_path new_content}
          let m0 := st4.messages ++ [⟨"user".toList,
            request_for_unit_test function_name class_name function_to_test file_path⟩]
          let w2 := chat_gpt_wrapper ctx.parses ctx.respond st4.calls m0 ("GPT4".toList)
            ("gpt-4".toList) 1000 (1/5) 0
          let st5 := {st4 with messages := w2.2.1, calls := st4.calls + w2.1.length}
          match w2.2.2 with
          | .error e => (st5, generated_unit_test, some e)
          | .ok unit_test_code =>
            let doc_code_sliced := if st5.doc_messages.length > 4 then
                doc_code.take 1 ++ doc_code.drop (doc_code.length - 4)
              else doc_code
            let gen1 := generated_unit_test ++ function_name ++ " in class ".toList ++
              class_name ++ "`\n".toList ++ renderOpt unit_test_code
            let current_test_path := "test_code/unit_test/test_".toList ++ class_name ++
              "_".toList ++ function_name ++ ".py".toList
            match unit_test_code with
            | none => (st5, gen1, some PyError.typeError)
            | some utc =>
              let _ := doc_code_sliced
              ({st5 with fs := fsWrite st5.fs current_test_path utc}, gen1, none)

/-- One standalone-function iteration of the inner loop (source lines 217–237):
the unit-test exchange forwards `engine`, `model`, `max_tokens`, `temperature`,
and the test-file path is built from the local `class_name`, which this branch
never assigns — reading it while unbound raises `UnboundLocalError`; writing a
`None` extraction raises `TypeError`. -/
def processPlain (ctx : Ctx) (file_path obj_key function_to_test : Str)
    (st : PipelineState) (generated_unit_test : Str) :
    PipelineState × Str × Option PyError :=
  let function_name := obj_key
  let m0 := st.messages ++ [⟨"user".toList,
    prompt_to_explain_the_function function_name function_to_test file_path⟩]
  let w := chat_gpt_wrapper ctx.parses ctx.respond st.calls m0 ctx.engine ctx.model
    ctx.max_tokens ctx.temperature 0
  let st1 := {st with messages := w.2.1, calls := st.calls + w.1.length}
  match w.2.2 with
  | .error e => (st1, generated_unit_test, some e)
  | .ok unit_test_code =>
    let gen1 := generated_unit_test ++ function_name ++ "`\n".toList ++
      renderOpt unit_test_code
    match st1.class_name with
    | none => (st1, gen1, some PyError.unboundLocal)
    | some class_name =>
      let current_test_path := "test_code/unit_test/test_".toList ++ class_name ++
        "_".toList ++ function_name ++ ".py".toList
      match unit_test_code with
      | none => (st1, gen1, some PyError.typeError)
      | some utc => ({st1 with fs := fsWrite st1.fs current_test_path utc}, gen1, none)

/-- A code object as supplied by the external catalog: either a class (a dict
of methods, each with its `str()` representation and source text) or a single
callable with its source text. -/
inductive ObjVal where
  | methods (ms : List (Str × Str × Str))
  | plain (src : Str)

/-- Python truthiness of `obj_value` (`if obj_value:`): an empty method dict is
falsy, a callable object is truthy. -/
def objTruthy : ObjVal → Bool
  | .methods ms => !ms.isEmpty
  | .plain _ => true

/-- The `for class_method_name, class_method in obj_value.items()` loop. -/
def processMethods (ctx : Ctx) (file_path : Str) :
    List (Str × Str × Str) → PipelineState → Str → PipelineState × Str × Option PyError
  | [], st, gen => (st, gen, none)
  | (_, rep, src) :: rest, st, gen =>
    let r := processClassMethod ctx file_path rep src st gen
    match r.2.2 with
    | some _ => r
    | none => processMethods ctx file_path rest r.1 r.2.1

/-- The `for obj_key, obj_value in objects["objects"].items()` loop. -/
def processObjects (ctx : Ctx) (file_path : Str) :
    List (Str × ObjVal) → PipelineState → Str → PipelineState × Str × Option PyError
  | [], st, gen => (st, gen, none)
  | (obj_key, v) :: rest, st, gen =>
    if objTruthy v then
      let r := match v with
        | .methods ms => processMethods ctx file_path ms st gen
        | .plain src => processPlain ctx file_path obj_key src st gen
      match r.2.2 with
      | some _ => r
      | none => processObjects ctx file_path rest r.1 r.2.1
    else processObjects ctx file_path rest st gen

/-- The `for file_path, objects in object_dict.items()` loop; a `none` second
component models a file entry without an `"objects"` key. After the objects of
a file are processed, the accumulated `generated_unit_test` text is written to
the mapped artifact path (source line 238). -/
def processFiles (ctx : Ctx) :
    List (Str × Option (List (Str × ObjVal))) → PipelineState →
      PipelineState × Option PyError
  | [], st => (st, none)
  | (_, none) :: rest, st => processFiles ctx rest st
  | (file_path, some objs) :: rest, st =>
    let r := processObjects ctx file_path objs st []
    match r.2.2 with
    | some e => (r.1, some e)
    | none =>
      processFiles ctx rest {r.1 with fs := fsWrite r.1.fs (unit_test_path file_path) r.2.1}

/-- `generate_unit_test` from the source. `object_dict` is the catalog produced
by the external `import_all_modules` collaborator; `full_prompt` and
`doc_prompt` are the two system prompts, which the source assembles from the
configuration strings and the external catalog's directory summary
(`directory_dict`) — both external data, so the assembled strings are taken as
parameters here. Returns the final pipeline state and, when an uncaught Python
exception aborted the run, which one; filesystem writes made before the
exception persist in the returned state. -/
def generate_unit_test (parses : Str → Bool) (respond : Nat → Str)
    (object_dict : List (Str × Option (List (Str × ObjVal))))
    (full_prompt doc_prompt doc_package engine model : Str)
    (max_tokens : Nat) (temperature : ℚ) (fs : FS) :
    PipelineState × Option PyError :=
  let ctx : Ctx := ⟨parses, respond, doc_package, engine, model, max_tokens, temperature⟩
  processFiles ctx object_dict
    ⟨[⟨"system".toList, full_prompt⟩], [⟨"system".toList, doc_prompt⟩], none, 0, fs⟩

/-- Processing of one `ChangeEntry` by the `__main__` dispatcher (source lines
284–307). `gitDiff p` is the raw output of `git diff @{upstream}..HEAD p`
(an external collaborator). For status `"D"` the mapped artifact path is
removed when it exists; for every other status the source only splits the
per-file diff into lines and prints those starting with `+ def` or `- def` —
the scoped regeneration block (lines 292–296) is commented out, so no
generation is invoked. Returns the new filesystem, the list of file paths
handed to the generation pipeline (always empty), and the printed diff lines. -/
def processChange (gitDiff : Str → Str) (fs : FS) (file_path status : Str) :
    FS × List Str × List Str :=
  if status = ("D".toList) then
    if fsExists fs (unit_test_path file_path) then
      (fsRemove fs (unit_test_path file_path), [], [])
    else (fs, [], [])
  else
    let git_diff_lines := pySplit '\n' (gitDiff file_path)
    (fs, [], git_diff_lines.filter fun line =>
      ("+ def".toList).isPrefixOf line || ("- def".toList).isPrefixOf line)

/-- Modelled Python default-argument semantics for `chat_gpt_wrapper`: the
default `input_messages=[]` is a single list object created once when the
function is defined; a call that omits the argument binds that shared object,
and `input_messages.append(...)` mutates it in place. Two successive calls with
no argument therefore run, in order, on the same underlying list: the second
call starts from the final message list of the first. All other arguments take
their declared defaults (`engine="GPT4"`, `model="gpt-4"`, `max_tokens=1000`,
`temperature=0.2`, `reruns_if_fail=0`). -/
def twoNoArgCalls (parses : Str → Bool) (respond : Nat → Str) :
    (List Request × List Message × Except PyError (Option Str)) ×
      (List Request × List Message × Except PyError (Option Str)) :=
  let r1 := chat_gpt_wrapper parses respond 0 [] ("GPT4".toList) ("gpt-4".toList)
    1000 (1/5) 0
  let r2 := chat_gpt_wrapper parses respond r1.1.length r1.2.1 ("GPT4".toList)
    ("gpt-4".toList) 1000 (1/5) 0
  (r1, r2)

/-- The assistant replies appended by `k` consecutive model calls starting at
request index `i`, in order of appearance. -/
def assistantReplies (respond : Nat → Str) : Nat → Nat → List Message
  | _, 0 => []
  | i, k + 1 => ⟨"assistant".toList, respond i⟩ :: assistantReplies respond (i + 1) k

/-! ### Concrete fixtures for witnesses and counterexamples -/

/-- A model stub whose every reply carries one fenced block of valid code. -/
def stubRespOk : Nat → Str := fun _ => "```python\nx = 1\n```".toList

/-- A model stub whose replies contain no fenced block at all. -/
def stubRespNoFence : Nat → Str := fun _ => "here is an answer without a fence".toList

/-- An `ast.parse` stub that accepts everything. -/
def stubParsesTrue : Str → Bool := fun _ => true

/-- An `ast.parse` stub that rejects everything (every extraction is
syntactically invalid). -/
def stubParsesFalse : Str → Bool := fun _ => false

/-- A one-file filesystem fixture. -/
def demoFS : FS := [("src/a.py".toList, "class DataCheck:\n    pass\n".toList)]

/-- `str(class_method)` fixtures for three methods of one class. -/
def reprM1 : Str := "<function DataCheck.m1 at 0x1>".toList

/-- Second method representation fixture. -/
def reprM2 : Str := "<function DataCheck.m2 at 0x2>".toList

/-- Third method representation fixture. -/
def reprM3 : Str := "<function DataCheck.m3 at 0x3>".toList

/-- Source-text fixture of the first method. -/
def srcM1 : Str := "def m1(self):\n    return 1\n".toList

/-- Source-text fixture of the second method. -/
def srcM2 : Str := "def m2(self):\n    return 2\n".toList

/-- Source-text fixture of the third method. -/
def srcM3 : Str := "def m3(self):\n    return 3\n".toList

/-- A catalog with one file holding one class with three methods: each method
iteration is one exchange on each of the two conversation threads. -/
def demoDictThreeMethods : List (Str × Option (List (Str × ObjVal))) :=
  [("src/a.py".toList, some [("DataCheck".toList,
    ObjVal.methods [("m1".toList, reprM1, srcM1), ("m2".toList, reprM2, srcM2),
      ("m3".toList, reprM3, srcM3)])])]

/-- A catalog in which a class method is processed before a standalone
function, so the standalone branch reads the stale `class_name`. -/
def demoDictStale : List (Str × Option (List (Str × ObjVal))) :=
  [("src/a.py".toList,
    some [("DataCheck".toList, ObjVal.methods [("m1".toList, reprM1, srcM1)]),
      ("f".toList, ObjVal.plain ("def f():\n    return 1\n".toList))])]

/-- A catalog whose first processed code object is a standalone function. -/
def demoDictPlainFirst : List (Str × Option (List (Str × ObjVal))) :=
  [("src/a.py".toList,
    some [("f".toList, ObjVal.plain ("def f():\n    return 1\n".toList))])]

/-! ### Helper lemmas -/

/-- Unfolding `chat_gpt_wrapper` when the extraction fails: `ast.parse(None)`
raises a `TypeError` regardless of the remaining retry budget. -/
lemma chat_gpt_wrapper_none_eq (parses : Str → Bool) (respond : Nat → Str) (i : Nat)
    (msgs : List Message) (e m : Str) (mt : Nat) (t : ℚ) (R : Nat)
    (hx : extract_all_python_code (respond i) = none) :
    chat_gpt_wrapper parses respond i msgs e m mt t R
      = ([⟨e, m, msgs, mt, t⟩], msgs ++ [⟨"assistant".toList, respond i⟩],
          Except.error PyError.typeError) := by
  cases R <;> · rw [chat_gpt_wrapper]; rw [hx]

/-- Unfolding `chat_gpt_wrapper` when the extraction parses: the call returns
immediately, whatever the budget. -/
lemma chat_gpt_wrapper_ok_eq (parses : Str → Bool) (respond : Nat → Str) (i : Nat)
    (msgs : List Message) (e m : Str) (mt : Nat) (t : ℚ) (R : Nat) (c : Str)
    (hx : extract_all_python_code (respond i) = some c) (hp : parses c = true) :
    chat_gpt_wrapper parses respond i msgs e m mt t R
      = ([⟨e, m, msgs, mt, t⟩], msgs ++ [⟨"assistant".toList, respond i⟩],
          Except.ok (some c)) := by
  cases R <;> · rw [chat_gpt_wrapper]; rw [hx]; simp [hp]

/-- Unfolding `chat_gpt_wrapper` on a parse failure with an exhausted budget:
the invalid extraction is returned unchanged. -/
lemma chat_gpt_wrapper_exhausted_eq (parses : Str → Bool) (respond : Nat → Str) (i : Nat)
    (msgs : List Message) (e m : Str) (mt : Nat) (t : ℚ) (c : Str)
    (hx : extract_all_python_code (respond i) = some c) (hp : parses c = false) :
    chat_gpt_wrapper parses respond i msgs e m mt t 0
      = ([⟨e, m, msgs, mt, t⟩], msgs ++ [⟨"assistant".toList, respond i⟩],
          Except.ok (some c)) := by
  rw [chat_gpt_wrapper]; rw [hx]; simp [hp]

/-- Unfolding `chat_gpt_wrapper` on a parse failure with budget left: the call
re-invokes itself on the grown session with the budget decremented — and with
the default `model="gpt-4"`, since the source omits `model` in the recursive
call. -/
lemma chat_gpt_wrapper_retry_eq (parses : Str → Bool) (respond : Nat → Str) (i : Nat)
    (msgs : List Message) (e m : Str) (mt : Nat) (t : ℚ) (n : Nat) (c : Str)
    (hx : extract_all_python_code (respond i) = some c) (hp : parses c = false) :
    chat_gpt_wrapper parses respond i msgs e m mt t (n + 1)
      = ((⟨e, m, msgs, mt, t⟩ : Request) ::
          (chat_gpt_wrapper parses respond (i + 1) (msgs ++ [⟨"assistant".toList, respond i⟩])
            e ("gpt-4".toList) mt t n).1,
         (chat_gpt_wrapper parses respond (i + 1) (msgs ++ [⟨"assistant".toList, respond i⟩])
            e ("gpt-4".toList) mt t n).2) := by
  rw [chat_gpt_wrapper]; rw [hx]; simp [hp]

/-- The first request of any `chat_gpt_wrapper` call carries exactly the
arguments of that call. -/
lemma chat_gpt_wrapper_head (parses : Str → Bool) (respond : Nat → Str) (i : Nat)
    (msgs : List Message) (e m : Str) (mt : Nat) (t : ℚ) (R : Nat) :
    (chat_gpt_wrapper parses respond i msgs e m mt t R).1.head?
      = some ⟨e, m, msgs, mt, t⟩ := by
  rcases hx : extract_all_python_code (respond i) with _ | c
  · rw [chat_gpt_wrapper_none_eq parses respond i msgs e m mt t R hx]; rfl
  · by_cases hp : parses c
    · rw [chat_gpt_wrapper_ok_eq parses respond i msgs e m mt t R c hx hp]; rfl
    · cases R with
      | zero =>
        rw [chat_gpt_wrapper_exhausted_eq parses respond i msgs e m mt t c hx
          (Bool.not_eq_true _ ▸ hp)]
        rfl
      | succ n =>
        rw [chat_gpt_wrapper_retry_eq parses respond i msgs e m mt t n c hx
          (Bool.not_eq_true _ ▸ hp)]
        rfl

/-- `str.replace` is the identity when the pattern does not occur in the
subject (for any fuel and any replacement count). -/
lemma pyReplaceF_eq_of_not_infix (old new : Str) :
    ∀ (fuel : Nat) (s : Str) (cnt : Option Nat), ¬ old <:+: s →
      pyReplaceF fuel s old new cnt = s := by
  intro fuel
  induction fuel with
  | zero => intro s cnt _; rfl
  | succ f ih =>
    intro s cnt habs
    have hone : old ≠ [] := by
      intro hcon
      exact habs (hcon ▸ List.nil_infix)
    by_cases hc0 : cnt = some 0
    · simp [pyReplaceF, hc0]
    · match s with
      | [] => simp [pyReplaceF, hc0, hone]
      | c :: rest =>
        have hsplit := (List.infix_cons_iff.not.mp habs :
          ¬ (old <+: c :: rest ∨ old <:+: rest))
        push_neg at hsplit
        have hpre : old.isPrefixOf (c :: rest) = false := by
          rcases hb : old.isPrefixOf (c :: rest) with _ | _
          · rfl
          · exact absurd (List.isPrefixOf_iff_prefix.mp hb) hsplit.1
        simp [pyReplaceF, hc0, hone, hpre, ih rest cnt hsplit.2]

/-- `str.replace(old, new)` leaves the subject unchanged when `old` is absent. -/
lemma pyReplace_eq_of_not_infix (s old new : Str) (habs : ¬ old <:+: s) :
    pyReplace s old new = s :=
  pyReplaceF_eq_of_not_infix old new (s.length + 1) s none habs

/-- After `os.remove`, the path no longer resolves. -/
lemma fsRead_fsRemove (fs : FS) (p : Str) : fsRead (fsRemove fs p) p = none := by
  induction fs with
  | nil => rfl
  | cons kv rest ih =>
    obtain ⟨k, v⟩ := kv
    by_cases hk : k = p
    · simpa [fsRemove, hk] using ih
    · simpa [fsRemove, fsRead, hk] using ih

/-- Reading back a just-written path yields the written content. -/
lemma fsRead_fsWrite (fs : FS) (p v : Str) : fsRead (fsWrite fs p v) p = some v := by
  simp [fsWrite, fsRead]

/-! ### Claim theorems -/

/-- Claim C1. The Artifact Path Mapper does not insert `test_` before the
final path segment: the source expression
`file_path[::-1].replace("\\", "/test_", 1)[::-1]` looks for a backslash in
the reversed path and inserts the unreversed text `/test_`, so on the
forward-slash path `a/b/module.py` it is the identity (not
`a/b/test_module.py`), and even on a backslash path it produces
`a\b_tset/module.py`. -/
theorem unit_test_path_maps_slash_path_to_itself :
    unit_test_path ("a/b/module.py".toList) = ("a/b/module.py".toList) ∧
    unit_test_path ("a/b/module.py".toList) ≠ ("a/b/test_module.py".toList) ∧
    unit_test_path ("a\\b\\module.py".toList) = ("a\\b_tset/module.py".toList) :=
  ⟨by decide, by decide, by decide⟩

/-- Claim C2. For a change entry with status `Added` (or `Modified`), the
dispatcher issues no generation call and regenerates nothing: the scoped
re-catalog block is commented out in the source, so the branch only prints the
`+ def` / `- def` lines of the file's diff and leaves the filesystem
untouched. -/
theorem processChange_added_issues_no_generation (gitDiff : Str → Str) (fs : FS) (p : Str) :
    (processChange gitDiff fs p ("A".toList)).1 = fs ∧
    (processChange gitDiff fs p ("A".toList)).2.1 = [] ∧
    (processChange gitDiff fs p ("M".toList)).1 = fs ∧
    (processChange gitDiff fs p ("M".toList)).2.1 = [] := by
  have ha : ¬ (("A".toList : Str) = ("D".toList)) := by decide
  have hm : ¬ (("M".toList : Str) = ("D".toList)) := by decide
  refine ⟨?_, ?_, ?_, ?_⟩ <;> simp [processChange, ha, hm]

/-- Claim C6. When the captured source text of a function does not occur
verbatim in the file, the documentation splice is a no-op: the content written
back equals the previous content, so reading the file afterwards gives
byte-for-byte what it held before, and no error is signaled. -/
theorem splice_noop_when_source_absent (fs : FS)
    (file_path file_content function_to_test doc_code : Str)
    (hread : fsRead fs file_path = some file_content)
    (habs : ¬ function_to_test <:+: file_content) :
    pyReplace file_content function_to_test doc_code = file_content ∧
    fsRead (fsWrite fs file_path (pyReplace file_content function_to_test doc_code))
        file_path
      = fsRead fs file_path := by
  have h1 := pyReplace_eq_of_not_infix file_content function_to_test doc_code habs
  exact ⟨h1, by rw [h1, fsRead_fsWrite, hread]⟩

/-- Witness for C6 at a concrete file and a source text that is absent from it. -/
theorem splice_noop_when_source_absent_witness :
    (fsRead demoFS ("src/a.py".toList) = some ("class DataCheck:\n    pass\n".toList)) ∧
    (¬ ("def f():".toList : Str) <:+: ("class DataCheck:\n    pass\n".toList)) ∧
    pyReplace ("class DataCheck:\n    pass\n".toList) ("def f():".toList) ("DOC".toList)
      = ("class DataCheck:\n    pass\n".toList) ∧
    fsRead (fsWrite demoFS ("src/a.py".toList)
        (pyReplace ("class DataCheck:\n    pass\n".toList) ("def f():".toList)
          ("DOC".toList))) ("src/a.py".toList)
      = fsRead demoFS ("src/a.py".toList) :=
  ⟨rfl, by decide,
    (splice_noop_when_source_absent demoFS ("src/a.py".toList)
      ("class DataCheck:\n    pass\n".toList) ("def f():".toList) ("DOC".toList)
      rfl (by decide)).1,
    (splice_noop_when_source_absent demoFS ("src/a.py".toList)
      ("class DataCheck:\n    pass\n".toList) ("def f():".toList) ("DOC".toList)
      rfl (by decide)).2⟩

/-- Claim C7. Processing a `Deleted` change entry whose mapped artifact path
exists removes that artifact — afterwards the path no longer exists — and
issues no generation call. -/
theorem processChange_deleted_removes_artifact (gitDiff : Str → Str) (fs : FS) (p : Str)
    (h : fsExists fs (unit_test_path p) = true) :
    fsExists (processChange gitDiff fs p ("D".toList)).1 (unit_test_path p) = false ∧
    (processChange gitDiff fs p ("D".toList)).2.1 = [] := by
  have h' : (fsRead fs (unit_test_path p)).isSome = true := h
  constructor
  · simp [processChange, fsExists, h', fsRead_fsRemove]
  · simp [processChange, fsExists, h']

/-- Witness for C7: deleting `src/a.py` when its mapped artifact exists leaves
the artifact path absent, with no generation call. -/
theorem processChange_deleted_removes_artifact_witness :
    (fsExists demoFS (unit_test_path ("src/a.py".toList)) = true) ∧
    (fsExists (processChange (fun _ => []) demoFS ("src/a.py".toList) ("D".toList)).1
        (unit_test_path ("src/a.py".toList)) = false ∧
      (processChange (fun _ => []) demoFS ("src/a.py".toList) ("D".toList)).2.1 = []) :=
  ⟨by decide, processChange_deleted_removes_artifact (fun _ => []) demoFS
    ("src/a.py".toList) (by decide)⟩

/-- Claim C4. With retry budget `R` and a model stub whose every reply extracts
to syntactically invalid code, the Validated Generation Loop issues exactly
`R + 1` requests, returns the `R + 1`-th (still invalid) extraction unchanged
together with the session, and every failed assistant reply stays in the
session history (one per attempt, in order). -/
theorem chat_gpt_wrapper_exhausts_budget (parses : Str → Bool) (respond : Nat → Str)
    (h : ∀ n, ∃ c, extract_all_python_code (respond n) = some c ∧ parses c = false) :
    ∀ (R i : Nat) (input_messages : List Message) (e m : Str) (mt : Nat) (t : ℚ),
      (chat_gpt_wrapper parses respond i input_messages e m mt t R).1.length = R + 1 ∧
      (chat_gpt_wrapper parses respond i input_messages e m mt t R).2.1
        = input_messages ++ assistantReplies respond i (R + 1) ∧
      (chat_gpt_wrapper parses respond i input_messages e m mt t R).2.2
        = Except.ok (extract_all_python_code (respond (i + R))) := by
  intro R
  induction R with
  | zero =>
    intro i msgs e m mt t
    obtain ⟨c, hc, hp⟩ := h i
    rw [chat_gpt_wrapper_exhausted_eq parses respond i msgs e m mt t c hc hp]
    refine ⟨rfl, by simp [assistantReplies], ?_⟩
    rw [Nat.add_zero, hc]
  | succ n ih =>
    intro i msgs e m mt t
    obtain ⟨c, hc, hp⟩ := h i
    rw [chat_gpt_wrapper_retry_eq parses respond i msgs e m mt t n c hc hp]
    obtain ⟨ih1, ih2, ih3⟩ :=
      ih (i + 1) (msgs ++ [⟨"assistant".toList, respond i⟩]) e ("gpt-4".toList) mt t
    dsimp only
    refine ⟨?_, ?_, ?_⟩
    · rw [List.length_cons, ih1]
    · rw [ih2]
      simp only [assistantReplies, List.append_assoc, List.singleton_append]
    · rw [ih3]
      have harith : i + 1 + n = i + (n + 1) := by omega
      rw [harith]

/-- Witness for C4: with budget 2 and an always-invalid stub, three requests
are issued, the returned text is the third extraction, and the session holds
the three assistant replies. -/
theorem chat_gpt_wrapper_exhausts_budget_witness :
    (∀ n, ∃ c, extract_all_python_code (stubRespOk n) = some c ∧
      stubParsesFalse c = false) ∧
    ((chat_gpt_wrapper stubParsesFalse stubRespOk 0 [] ("GPT4".toList) ("gpt-4".toList)
        1000 (1/5) 2).1.length = 2 + 1 ∧
      (chat_gpt_wrapper stubParsesFalse stubRespOk 0 [] ("GPT4".toList) ("gpt-4".toList)
          1000 (1/5) 2).2.1
        = [] ++ assistantReplies stubRespOk 0 (2 + 1) ∧
      (chat_gpt_wrapper stubParsesFalse stubRespOk 0 [] ("GPT4".toList) ("gpt-4".toList)
          1000 (1/5) 2).2.2
        = Except.ok (extract_all_python_code (stubRespOk (0 + 2)))) :=
  ⟨fun _ => ⟨"x = 1".toList, rfl, rfl⟩,
    chat_gpt_wrapper_exhausts_budget stubParsesFalse stubRespOk
      (fun _ => ⟨"x = 1".toList, rfl, rfl⟩) 2 0 [] ("GPT4".toList) ("gpt-4".toList)
      1000 (1/5)⟩

/-- The budget-0 call issues exactly its own request, whatever the model
replies. -/
lemma chat_gpt_wrapper_zero_trace (parses : Str → Bool) (respond : Nat → Str) (i : Nat)
    (msgs : List Message) (e m : Str) (mt : Nat) (t : ℚ) :
    (chat_gpt_wrapper parses respond i msgs e m mt t 0).1 = [⟨e, m, msgs, mt, t⟩] := by
  rcases hx : extract_all_python_code (respond i) with _ | c
  · rw [chat_gpt_wrapper_none_eq parses respond i msgs e m mt t 0 hx]
  · by_cases hp : parses c
    · rw [chat_gpt_wrapper_ok_eq parses respond i msgs e m mt t 0 c hx hp]
    · rw [chat_gpt_wrapper_exhausted_eq parses respond i msgs e m mt t c hx
        (Bool.not_eq_true _ ▸ hp)]

/-- Claim C8. In every `chat_gpt_wrapper` call tree, the first request uses the
caller's `model`, and every retried request uses the default `"gpt-4"`: the
recursive call after a parse failure does not forward the `model` argument. -/
theorem retried_requests_use_default_model (parses : Str → Bool) (respond : Nat → Str) :
    ∀ (R i : Nat) (msgs : List Message) (e m : Str) (mt : Nat) (t : ℚ) (k : Nat)
      (req : Request),
      (chat_gpt_wrapper parses respond i msgs e m mt t R).1.get? k = some req →
      req.model = if k = 0 then m else ("gpt-4".toList) := by
  intro R
  induction R with
  | zero =>
    intro i msgs e m mt t k req hreq
    rw [chat_gpt_wrapper_zero_trace parses respond i msgs e m mt t] at hreq
    cases k with
    | zero =>
      simp only [List.get?] at hreq
      cases hreq
      rfl
    | succ j => simp [List.get?] at hreq
  | succ n ihn =>
    intro i msgs e m mt t k req hreq
    rcases hx : extract_all_python_code (respond i) with _ | c
    · rw [chat_gpt_wrapper_none_eq parses respond i msgs e m mt t (n + 1) hx] at hreq
      cases k with
      | zero =>
        simp only [List.get?] at hreq
        cases hreq
        rfl
      | succ j => simp [List.get?] at hreq
    · by_cases hp : parses c
      · rw [chat_gpt_wrapper_ok_eq parses respond i msgs e m mt t (n + 1) c hx hp] at hreq
        cases k with
        | zero =>
          simp only [List.get?] at hreq
          cases hreq
          rfl
        | succ j => simp [List.get?] at hreq
      · rw [chat_gpt_wrapper_retry_eq parses respond i msgs e m mt t n c hx
          (Bool.not_eq_true _ ▸ hp)] at hreq
        cases k with
        | zero =>
          simp only [List.get?] at hreq
          cases hreq
          rfl
        | succ j =>
          simp only [List.get?] at hreq
          have hj := ihn (i + 1) (msgs ++ [⟨"assistant".toList, respond i⟩]) e
            ("gpt-4".toList) mt t j req hreq
          rw [ite_self] at hj
          rw [if_neg (Nat.succ_ne_zero j)]
          exact hj

/-- Witness for C8: a call with `model="model-from-caller"` and budget 1 whose
reply never parses issues a second request, and that retried request's model is
`"gpt-4"`. -/
theorem retried_requests_use_default_model_witness :
    ((chat_gpt_wrapper stubParsesFalse stubRespOk 0 [] ("GPT4".toList)
        ("model-from-caller".toList) 1000 (1/5) 1).1.get? 1
      = some ⟨"GPT4".toList, "gpt-4".toList,
          [⟨"assistant".toList, "```python\nx = 1\n```".toList⟩], 1000, 1/5⟩) ∧
    (⟨"GPT4".toList, "gpt-4".toList,
        [⟨"assistant".toList, "```python\nx = 1\n```".toList⟩], 1000,
        (1/5 : ℚ)⟩ : Request).model
      = if 1 = 0 then ("model-from-caller".toList) else ("gpt-4".toList) :=
  ⟨rfl, retried_requests_use_default_model stubParsesFalse stubRespOk 1 0 []
    ("GPT4".toList) ("model-from-caller".toList) 1000 (1/5) 1 _ rfl⟩

/-- Claim C3. After three class-method iterations (one exchange per thread
each), the run ends cleanly, the documentation thread is trimmed to
`[system] + last_four` (length 5, system message intact at index 0) — but the
test-generation thread has grown to length 7, past the claimed `system + 4`
window: the source re-checks `len(doc_messages) > 4` and slices the string
`doc_code` instead of replacing `messages`, so the test session is never
trimmed. -/
theorem test_session_grows_past_window :
    (generate_unit_test stubParsesTrue stubRespOk demoDictThreeMethods ("FULL".toList)
        ("DOC".toList) ("sphinx".toList) ("GPT4".toList) ("gpt-4".toList) 1000 (2/5)
        demoFS).2 = none ∧
    (generate_unit_test stubParsesTrue stubRespOk demoDictThreeMethods ("FULL".toList)
        ("DOC".toList) ("sphinx".toList) ("GPT4".toList) ("gpt-4".toList) 1000 (2/5)
        demoFS).1.messages.length = 7 ∧
    (generate_unit_test stubParsesTrue stubRespOk demoDictThreeMethods ("FULL".toList)
        ("DOC".toList) ("sphinx".toList) ("GPT4".toList) ("gpt-4".toList) 1000 (2/5)
        demoFS).1.doc_messages.length = 5 ∧
    (generate_unit_test stubParsesTrue stubRespOk demoDictThreeMethods ("FULL".toList)
        ("DOC".toList) ("sphinx".toList) ("GPT4".toList) ("gpt-4".toList) 1000 (2/5)
        demoFS).1.doc_messages.get? 0 = some ⟨"system".toList, "DOC".toList⟩ :=
  ⟨rfl, by decide, by decide, rfl⟩

/-- Counterexample to Claim C5 as stated: on a response with zero fenced
blocks the Extractor does return the `None` signal, but the downstream does
not produce a placeholder file — the run aborts with an uncaught `TypeError`
(from `ast.parse(None)`) and the filesystem is exactly as before, no generated
file written. -/
theorem no_fence_response_aborts_pipeline :
    extract_all_python_code (stubRespNoFence 0) = none ∧
    (generate_unit_test stubParsesTrue stubRespNoFence demoDictPlainFirst ("FULL".toList)
        ("DOC".toList) ("sphinx".toList) ("GPT4".toList) ("gpt-4".toList) 1000 (2/5)
        demoFS).2 = some PyError.typeError ∧
    (generate_unit_test stubParsesTrue stubRespNoFence demoDictPlainFirst ("FULL".toList)
        ("DOC".toList) ("sphinx".toList) ("GPT4".toList) ("gpt-4".toList) 1000 (2/5)
        demoFS).1.fs = demoFS :=
  ⟨rfl, rfl, rfl⟩

/-- Claim C5 (amended). For every response with zero fenced blocks the
Extractor returns the distinguished `None` signal, never the empty string; the
Validated Generation Loop then passes that absent result to the syntax check,
which raises an uncaught `TypeError`, so the run aborts before any generated
file is written. -/
theorem extractor_none_signal_and_abort (s : Str) (hs : findBlocks s = [])
    (parses : Str → Bool) (respond : Nat → Str) (i : Nat) (msgs : List Message)
    (e m : Str) (mt : Nat) (t : ℚ) (R : Nat) (hr : respond i = s) :
    extract_all_python_code s = none ∧
    (chat_gpt_wrapper parses respond i msgs e m mt t R).2.2
      = Except.error PyError.typeError := by
  have h1 : extract_all_python_code s = none := by
    simp only [extract_all_python_code, hs]
  refine ⟨h1, ?_⟩
  rw [chat_gpt_wrapper_none_eq parses respond i msgs e m mt t R (hr ▸ h1)]

/-- Witness for C5 (amended) at a concrete fence-free response. -/
theorem extractor_none_signal_and_abort_witness :
    (findBlocks ("plain words only".toList) = []) ∧
    (("plain words only".toList : Str) = ("plain words only".toList)) ∧
    (extract_all_python_code ("plain words only".toList) = none ∧
      (chat_gpt_wrapper stubParsesTrue (fun _ => "plain words only".toList) 0 []
          ("GPT4".toList) ("gpt-4".toList) 1000 (1/5) 0).2.2
        = Except.error PyError.typeError) :=
  ⟨rfl, rfl, extractor_none_signal_and_abort ("plain words only".toList) rfl
    stubParsesTrue (fun _ => "plain words only".toList) 0 [] ("GPT4".toList)
    ("gpt-4".toList) 1000 (1/5) 0 rfl⟩

/-- When the first model reply of a standalone-function iteration extracts to
some code, the iteration still aborts with an unbound-local error if
`class_name` was never assigned: the test-file path reads it. -/
lemma processPlain_aborts_unbound (ctx : Ctx) (file_path obj_key src : Str)
    (st : PipelineState) (gen : Str) (c : Str)
    (hx : extract_all_python_code (ctx.respond st.calls) = some c)
    (hcn : st.class_name = none) :
    (processPlain ctx file_path obj_key src st gen).2.2 = some PyError.unboundLocal := by
  by_cases hp : ctx.parses c
  · have hw := chat_gpt_wrapper_ok_eq ctx.parses ctx.respond st.calls
      (st.messages ++
        [⟨"user".toList, prompt_to_explain_the_function obj_key src file_path⟩])
      ctx.engine ctx.model ctx.max_tokens ctx.temperature 0 c hx hp
    rw [processPlain, hw]
    dsimp only
    rw [hcn]
  · have hw := chat_gpt_wrapper_exhausted_eq ctx.parses ctx.respond st.calls
      (st.messages ++
        [⟨"user".toList, prompt_to_explain_the_function obj_key src file_path⟩])
      ctx.engine ctx.model ctx.max_tokens ctx.temperature c hx
      (Bool.not_eq_true _ ▸ hp)
    rw [processPlain, hw]
    dsimp only
    rw [hcn]

/-- Claim C9. The standalone-function branch builds its test-file path from the
never-assigned-there local `class_name`: (i) every run whose first processed
code object is a standalone function (with a reply containing a fenced block)
aborts with an unbound-local error when writing that file; (ii) when a class
method was processed earlier, the standalone function's test file reuses that
class's name — after `DataCheck.m1` then standalone `f`, the write goes to
`test_code/unit_test/test_DataCheck_f.py`. -/
theorem standalone_branch_unbound_class_name
    (parses : Str → Bool) (respond : Nat → Str) (c : Str)
    (hx : extract_all_python_code (respond 0) = some c)
    (fp k src full_prompt doc_prompt dpk e m : Str) (mt : Nat) (t : ℚ) (fs : FS)
    (restObjs : List (Str × ObjVal))
    (restFiles : List (Str × Option (List (Str × ObjVal)))) :
    (generate_unit_test parses respond
        ((fp, some ((k, ObjVal.plain src) :: restObjs)) :: restFiles)
        full_prompt doc_prompt dpk e m mt t fs).2 = some PyError.unboundLocal ∧
    fsRead (generate_unit_test stubParsesTrue stubRespOk demoDictStale ("FULL".toList)
        ("DOC".toList) ("sphinx".toList) ("GPT4".toList) ("gpt-4".toList) 1000 (2/5)
        demoFS).1.fs ("test_code/unit_test/test_DataCheck_f.py".toList)
      = some ("x = 1".toList) := by
  constructor
  · have hplain := processPlain_aborts_unbound ⟨parses, respond, dpk, e, m, mt, t⟩ fp k src
      ⟨[⟨"system".toList, full_prompt⟩], [⟨"system".toList, doc_prompt⟩], none, 0, fs⟩
      [] c hx rfl
    rw [generate_unit_test]
    rw [processFiles]
    simp only [processObjects, objTruthy, if_true, hplain]
  · rfl

/-- Witness for C9 at a concrete catalog whose only code object is a
standalone function. -/
theorem standalone_branch_unbound_class_name_witness :
    (extract_all_python_code (stubRespOk 0) = some ("x = 1".toList)) ∧
    ((generate_unit_test stubParsesTrue stubRespOk
        (("src/a.py".toList,
          some (("f".toList, ObjVal.plain ("def f():\n    return 1\n".toList)) :: [])) :: [])
        ("FULL".toList) ("DOC".toList) ("sphinx".toList) ("GPT4".toList) ("gpt-4".toList)
        1000 (2/5) demoFS).2 = some PyError.unboundLocal ∧
      fsRead (generate_unit_test stubParsesTrue stubRespOk demoDictStale ("FULL".toList)
          ("DOC".toList) ("sphinx".toList) ("GPT4".toList) ("gpt-4".toList) 1000 (2/5)
          demoFS).1.fs ("test_code/unit_test/test_DataCheck_f.py".toList)
        = some ("x = 1".toList)) :=
  ⟨rfl, standalone_branch_unbound_class_name stubParsesTrue stubRespOk ("x = 1".toList)
    rfl ("src/a.py".toList) ("f".toList) ("def f():\n    return 1\n".toList)
    ("FULL".toList) ("DOC".toList) ("sphinx".toList) ("GPT4".toList) ("gpt-4".toList)
    1000 (2/5) demoFS [] []⟩

/-- Claim C10. The shared mutable default for `input_messages` makes two
successive no-argument calls dependent: the first call's final session is the
appended assistant reply, and the second call's first request already carries
that reply — it does not start from an empty session. -/
theorem default_session_shared_across_calls (parses : Str → Bool) (respond : Nat → Str)
    (c : Str) (hx : extract_all_python_code (respond 0) = some c)
    (hp : parses c = true) :
    (twoNoArgCalls parses respond).1.2.1 = [⟨"assistant".toList, respond 0⟩] ∧
    (twoNoArgCalls parses respond).2.1.head?
      = some ⟨"GPT4".toList, "gpt-4".toList, [⟨"assistant".toList, respond 0⟩],
          1000, 1/5⟩ := by
  have h1 := chat_gpt_wrapper_ok_eq parses respond 0 [] ("GPT4".toList) ("gpt-4".toList)
    1000 (1/5) 0 c hx hp
  constructor
  · simp only [twoNoArgCalls, h1, List.nil_append]
  · simp only [twoNoArgCalls, h1, List.nil_append]
    exact chat_gpt_wrapper_head parses respond _ _ ("GPT4".toList) ("gpt-4".toList)
      1000 (1/5) 0

/-- Witness for C10 with the always-valid stub. -/
theorem default_session_shared_across_calls_witness :
    (extract_all_python_code (stubRespOk 0) = some ("x = 1".toList) ∧
      stubParsesTrue ("x = 1".toList) = true) ∧
    ((twoNoArgCalls stubParsesTrue stubRespOk).1.2.1
        = [⟨"assistant".toList, stubRespOk 0⟩] ∧
      (twoNoArgCalls stubParsesTrue stubRespOk).2.1.head?
        = some ⟨"GPT4".toList, "gpt-4".toList, [⟨"assistant".toList, stubRespOk 0⟩],
            1000, 1/5⟩) :=
  ⟨⟨rfl, rfl⟩, default_session_shared_across_calls stubParsesTrue stubRespOk
    ("x = 1".toList) rfl rfl⟩

end Main
